import Mathlib

/-!
Shallow embedding of `src/status-checker/src/main.rs` (a concurrent website
status checker) and proofs of the specification claims about it.

Modelling conventions:
* Machine integers (`usize`, `u64`, `u32`, `u16`) are modelled as `Nat`;
  none of the verified code paths can overflow for the claims at hand.
* `env::args()` is modelled as a `List String` of the arguments after the
  program name.  Rust's string primitives `str::parse::<uN>`,
  `str::starts_with` and `str::trim` are modelled by `strToNat?`,
  `strStartsWith` and `strTrim` below, defined on character lists so that
  they compute inside the kernel.
* The network is modelled as an oracle `send : Nat → Except String Nat`
  giving, for each attempt index, either the HTTP status code of the
  received response (`Except.ok code`) or a transport-level error
  description (`Except.error e`).  Whether
  `reqwest::blocking::Client::builder().timeout(..).build()` succeeds is
  the Boolean `clientOk`.
* Wall-clock quantities (`response_time`, `timestamp`) are not modelled;
  instead `check_website` additionally returns the number of send attempts
  performed and the list of backoff sleeps (in milliseconds) it executed,
  so that the retry/backoff claims are statable.
* The file contents behind `--file` are modelled as a `List String` of the
  file's lines (successful reads; I/O errors are outside the embedding).
-/

deriving instance DecidableEq for Except

namespace StatusChecker

/-- The `WebsiteStatus` struct of the source, without the wall-clock
fields (`response_time`, `timestamp`).  `action_status` is
`Result<u16, String>` in the source. -/
structure WebsiteStatus where
  url : String
  action_status : Except String Nat
  deriving Repr, DecidableEq

/-- The `Config` struct produced by `Config::from_args`. -/
structure Config where
  file_path : Option String
  urls : List String
  workers : Nat
  timeout_secs : Nat
  retries : Nat
  deriving Repr, DecidableEq

/-- Rust's `str::starts_with(pat)`, modelled on the character list of
the string (kernel-computable, unlike `String.startsWith`). -/
def strStartsWith (s pat : String) : Bool :=
  pat.data.isPrefixOf s.data

/-- Rust's `str::trim`, modelled on the character list: drop whitespace
from both ends.  (Lean's `Char.isWhitespace` covers space, tab, CR and
LF; Rust additionally trims rarer Unicode whitespace, which no claim
depends on.) -/
def strTrim (s : String) : String :=
  ⟨((s.data.dropWhile Char.isWhitespace).reverse.dropWhile
      Char.isWhitespace).reverse⟩

/-- Rust's `str::parse::<uN>` for the numeric flags: succeeds exactly on
non-empty all-digit strings, yielding the decimal value.  (Rust also
accepts a leading `+` and rejects values over the integer width's
maximum; no claim depends on either.) -/
def strToNat? (s : String) : Option Nat :=
  if s.data ≠ [] ∧ s.data.all Char.isDigit then
    some (s.data.foldl (fun n c => n * 10 + (c.toNat - '0'.toNat)) 0)
  else
    none

/-- The retry loop of `check_website` (`for attempt in 0..=retries`),
starting at attempt index `attempt` with `remaining` further iterations
allowed after the current one (`remaining = retries - attempt`).
Returns the final `result`, the number of send attempts performed, and
the list of backoff sleeps (in ms) executed, in order.  Mirrors the
source: on `Ok(resp)` it breaks with the status code; on `Err` with
`attempt < retries` it sleeps 100 ms and continues; on `Err` at the last
attempt it records the error description. -/
def probeFrom (send : Nat → Except String Nat) :
    Nat → Nat → Except String Nat × Nat × List Nat
  | attempt, remaining =>
    match send attempt with
    | .ok code => (.ok code, 1, [])
    | .error e =>
      match remaining with
      | 0 => (.error e, 1, [])
      | r + 1 =>
        let rest := probeFrom send (attempt + 1) r
        (rest.1, rest.2.1 + 1, 100 :: rest.2.2)

/-- `check_website(url, timeout_secs, retries)` from the source.  The
timeout only affects the client construction and each network attempt,
both of which are abstracted into `clientOk` and `send`; it is therefore
not a separate parameter here.  Returns the produced `WebsiteStatus`
together with the attempt count and the backoff sleeps. -/
def check_website (clientOk : Bool) (send : Nat → Except String Nat)
    (retries : Nat) (url : String) : WebsiteStatus × Nat × List Nat :=
  if clientOk then
    let r := probeFrom send 0 retries
    ({ url := url, action_status := r.1 }, r.2.1, r.2.2)
  else
    ({ url := url, action_status := .error "Failed to create client" }, 0, [])

/-- The argument-processing loop of `Config::from_args` (`while let
Some(arg) = args.next()`), carrying the mutable state
(`file_path`, `urls`, `workers`, `timeout_secs`, `retries`), followed by
the emptiness check after the loop. -/
def fromArgsLoop :
    List String → Option String → List String → Nat → Nat → Nat →
    Except String Config
  | [], fp, urls, w, t, r =>
    if fp = none ∧ urls = [] then
      .error "No URLs provided. Use --file or provide URLs directly."
    else
      .ok ⟨fp, urls, w, t, r⟩
  | arg :: rest, fp, urls, w, t, r =>
    if arg = "--file" then
      match rest with
      | [] => .error "Expected file path after --file"
      | p :: rest2 => fromArgsLoop rest2 (some p) urls w t r
    else if arg = "--workers" then
      match rest with
      | [] => .error "Expected number after --workers"
      | n :: rest2 =>
        match strToNat? n with
        | none => .error "Invalid number for --workers"
        | some v => fromArgsLoop rest2 fp urls v t r
    else if arg = "--timeout" then
      match rest with
      | [] => .error "Expected number after --timeout"
      | n :: rest2 =>
        match strToNat? n with
        | none => .error "Invalid number for --timeout"
        | some v => fromArgsLoop rest2 fp urls w v r
    else if arg = "--retries" then
      match rest with
      | [] => .error "Expected number after --retries"
      | n :: rest2 =>
        match strToNat? n with
        | none => .error "Invalid number for --retries"
        | some v => fromArgsLoop rest2 fp urls w t v
    else if strStartsWith arg "--" then
      .error ("Unknown flag: " ++ arg)
    else
      fromArgsLoop rest fp (urls ++ [arg]) w t r

/-- `Config::from_args`, on the argument list after the program name,
with the source's defaults `workers = 4`, `timeout_secs = 5`,
`retries = 0`. -/
def Config.from_args (args : List String) : Except String Config :=
  fromArgsLoop args none [] 4 5 0

/-- The file-reading loop of `load_urls`: for each line, trim it and keep
it unless it is empty or starts with `#`. -/
def processLines : List String → List String
  | [] => []
  | l :: ls =>
    let t := strTrim l
    if !(t == "") && !(strStartsWith t "#") then t :: processLines ls
    else processLines ls

/-- The URL list `load_urls` assembles before its emptiness check: the
kept file lines (only when `--file` was given) followed by the
command-line URLs. -/
def loadList (cfg : Config) (fileLines : List String) : List String :=
  (match cfg.file_path with
   | some _ => processLines fileLines
   | none => []) ++ cfg.urls

/-- `load_urls` from the source, with the file contents supplied as the
list of its lines. -/
def load_urls (cfg : Config) (fileLines : List String) :
    Except String (List String) :=
  let urls := loadList cfg fileLines
  if urls = [] then .error "No valid URLs provided." else .ok urls

/-- The probe function a worker runs on one URL, with a per-URL network
environment: `clientOk u` says whether client construction succeeds for
the probe of `u`, and `send u` is the per-attempt network oracle. -/
def probeOf (clientOk : String → Bool) (send : String → Nat → Except String Nat)
    (retries : Nat) : String → WebsiteStatus :=
  fun u => (check_website (clientOk u) (send u) retries u).1

/-- The work queue's content: the input URLs paired with their queue
positions.  `main` enqueues the URLs in input order, so the i-th
successful `recv` under the shared `Mutex<Receiver>` yields the i-th
URL. -/
def queueItems (urls : List String) : List (Nat × String) :=
  (List.range urls.length).zip urls

/-- The items worker `w` dequeues, under the delivery schedule
`assign : queue position → worker id` (which worker performed the i-th
`recv`).  A worker processes its items in queue order (FIFO). -/
def workerItems (assign : Nat → Nat) (w : Nat) (urls : List String) :
    List (Nat × String) :=
  (queueItems urls).filter (fun p => assign p.1 == w)

/-- The outcomes worker `w` sends into the status channel, in order. -/
def workerOutcomes (assign : Nat → Nat) (probe : String → WebsiteStatus)
    (w : Nat) (urls : List String) : List WebsiteStatus :=
  (workerItems assign w urls).map (fun p => probe p.2)

/-- All outcomes of a run with `workers` workers, grouped worker by
worker.  The collection `main` drains from `rx_status` is an
interleaving of the per-worker streams, i.e. a permutation of this
list. -/
def runOutcomes (workers : Nat) (assign : Nat → Nat)
    (probe : String → WebsiteStatus) (urls : List String) :
    List WebsiteStatus :=
  (List.range workers).flatMap (fun w => workerOutcomes assign probe w urls)

/-- The result-producing part of `main`: parse the arguments, load the
URLs (short-circuiting on either error, as `main` exits with code 2
there before spawning any worker), then run the worker pool. -/
def mainResults (args fileLines : List String) (assign : Nat → Nat)
    (clientOk : String → Bool) (send : String → Nat → Except String Nat) :
    Except String (List WebsiteStatus) :=
  match Config.from_args args with
  | .error e => .error e
  | .ok cfg =>
    match load_urls cfg fileLines with
    | .error e => .error e
    | .ok urls =>
      .ok (runOutcomes cfg.workers assign (probeOf clientOk send cfg.retries) urls)

/-- Restatement of the URL-loading order from the spec's words, for
comparison with `load_urls`: trim every file line, drop the lines that
are empty after trimming or start with `#`, keep file order, and append
the command-line URLs after all file URLs. -/
def loadSpec (fileLines cliUrls : List String) : List String :=
  ((fileLines.map strTrim).filter
    (fun t => !(t == "") && !(strStartsWith t "#"))) ++ cliUrls

/-! ### Helper lemmas about the probe loop -/

/-- Unfolding: an attempt that receives a response breaks the loop. -/
theorem probeFrom_ok {send : Nat → Except String Nat} {attempt c : Nat}
    (remaining : Nat) (h : send attempt = .ok c) :
    probeFrom send attempt remaining = (.ok c, 1, []) := by
  cases remaining <;> rw [probeFrom, h]

/-- Unfolding: a failure on the last allowed attempt ends the loop with
that error and no further sleep. -/
theorem probeFrom_err_zero {send : Nat → Except String Nat} {attempt : Nat}
    {e : String} (h : send attempt = .error e) :
    probeFrom send attempt 0 = (.error e, 1, []) := by
  rw [probeFrom, h]

/-- Unfolding: a failure with attempts remaining sleeps 100 ms and
continues with the next attempt. -/
theorem probeFrom_err_succ {send : Nat → Except String Nat} {attempt : Nat}
    {e : String} (r : Nat) (h : send attempt = .error e) :
    probeFrom send attempt (r + 1) =
      ((probeFrom send (attempt + 1) r).1,
        (probeFrom send (attempt + 1) r).2.1 + 1,
        100 :: (probeFrom send (attempt + 1) r).2.2) := by
  rw [probeFrom, h]

/-- The loop performs at least one send attempt. -/
theorem probeFrom_attempts_pos (send : Nat → Except String Nat)
    (attempt remaining : Nat) : 1 ≤ (probeFrom send attempt remaining).2.1 := by
  cases remaining with
  | zero =>
    cases h : send attempt
    · rw [probeFrom_err_zero h]
    · rw [probeFrom_ok 0 h]
  | succ r =>
    cases h : send attempt
    · rw [probeFrom_err_succ r h]
      exact Nat.le_add_left 1 _
    · rw [probeFrom_ok (r + 1) h]

/-- When every attempt fails, the loop performs `remaining + 1` attempts,
sleeps once per non-final attempt, and keeps the last error. -/
theorem probeFrom_all_fail (errs : Nat → String) :
    ∀ remaining attempt,
      probeFrom (fun i => .error (errs i)) attempt remaining =
        (.error (errs (attempt + remaining)), remaining + 1,
          List.replicate remaining 100)
  | 0, attempt => by
    rw [probeFrom_err_zero rfl]
    rfl
  | r + 1, attempt => by
    rw [probeFrom_err_succ r rfl, probeFrom_all_fail errs r (attempt + 1),
      show attempt + 1 + r = attempt + (r + 1) from by omega,
      List.replicate_succ]

/-- If attempts `attempt, …, attempt + k - 1` fail and attempt
`attempt + k` receives a response with code `c`, the loop stops right
there: `k + 1` attempts, result `Success c`, one 100 ms sleep per failed
attempt. -/
theorem probeFrom_first_ok (send : Nat → Except String Nat) (c : Nat) :
    ∀ (k remaining attempt : Nat), k ≤ remaining →
      send (attempt + k) = .ok c →
      (∀ j, j < k → ∃ e, send (attempt + j) = .error e) →
      probeFrom send attempt remaining =
        (.ok c, k + 1, List.replicate k 100)
  | 0, remaining, attempt, _, hok, _ => by
    simp only [Nat.add_zero] at hok
    rw [probeFrom_ok remaining hok]
    rfl
  | k + 1, remaining, attempt, hle, hok, hfail => by
    obtain ⟨e, he⟩ := hfail 0 (Nat.succ_pos k)
    simp only [Nat.add_zero] at he
    obtain ⟨r, rfl⟩ : ∃ r, remaining = r + 1 :=
      ⟨remaining - 1, by omega⟩
    have ih := probeFrom_first_ok send c k r (attempt + 1) (by omega)
      (by rw [show attempt + 1 + k = attempt + (k + 1) from by omega]; exact hok)
      (fun j hj => by
        rw [show attempt + 1 + j = attempt + (j + 1) from by omega]
        exact hfail (j + 1) (by omega))
    rw [probeFrom_err_succ r he, ih, List.replicate_succ]

/-! ### Partitioning the queue among the workers -/

/-- Congruence for `flatMap` under pointwise equality on members. -/
theorem flatMap_congr {α β : Type} {l : List α} {f g : α → List β}
    (h : ∀ a ∈ l, f a = g a) : l.flatMap f = l.flatMap g := by
  induction l with
  | nil => rfl
  | cons a t ih =>
    simp only [List.flatMap_cons]
    rw [h a (List.mem_cons_self a t), ih (fun b hb => h b (List.mem_cons_of_mem a hb))]

/-- Splitting a list into the buckets `f a = 0, …, f a = k - 1` and
concatenating the buckets is a permutation of the list, provided every
element falls into some bucket. -/
theorem flatMap_filter_perm {α : Type} (f : α → Nat) :
    ∀ (k : Nat) (l : List α), (∀ a ∈ l, f a < k) →
      ((List.range k).flatMap (fun w => l.filter (fun a => f a == w))).Perm l
  | 0, l, h => by
    cases l with
    | nil => simp
    | cons a t => exact absurd (h a (List.mem_cons_self a t)) (Nat.not_lt_zero _)
  | k + 1, l, h => by
    rw [List.range_succ, List.flatMap_append]
    have hsingle : ([k] : List Nat).flatMap (fun w => l.filter (fun a => f a == w)) =
        l.filter (fun a => f a == k) := by
      simp
    rw [hsingle]
    have hbucket : ∀ w ∈ List.range k,
        l.filter (fun a => f a == w) =
          (l.filter (fun a => !(f a == k))).filter (fun a => f a == w) := by
      intro w hw
      have hwk : w ≠ k := Nat.ne_of_lt (List.mem_range.mp hw)
      rw [List.filter_filter]
      refine (List.filter_congr ?_).symm
      intro a _
      cases h1 : f a == w with
      | false => simp
      | true =>
        have : f a = w := beq_iff_eq.mp h1
        simp [this, hwk]
    rw [flatMap_congr hbucket]
    have hsub : ∀ a ∈ l.filter (fun a => !(f a == k)), f a < k := by
      intro a ha
      have hmem := List.mem_filter.mp ha
      have : f a ≠ k := by
        intro hc
        simp [hc] at hmem
      exact Nat.lt_of_le_of_ne (Nat.lt_succ_iff.mp (h a hmem.1)) this
    have ih := flatMap_filter_perm f k (l.filter (fun a => !(f a == k))) hsub
    refine (ih.append_right _).trans ?_
    have hnn : l.filter (fun a => !!(f a == k)) = l.filter (fun a => f a == k) :=
      List.filter_congr (fun a _ => Bool.not_not _)
    have := List.filter_append_perm (fun a => !(f a == k)) l
    rw [hnn] at this
    exact this

/-- The URL recorded in a probe's outcome is the probed URL. -/
theorem check_website_url (clientOk : Bool) (send : Nat → Except String Nat)
    (retries : Nat) (url : String) :
    (check_website clientOk send retries url).1.url = url := by
  cases clientOk <;> rfl

/-- Under any delivery schedule that sends every queue position to a live
worker, the URLs of the pooled outcomes are a permutation of the input
URLs. -/
theorem runOutcomes_map_url_perm (workers : Nat) (assign : Nat → Nat)
    (clientOk : String → Bool) (send : String → Nat → Except String Nat)
    (retries : Nat) (urls : List String)
    (hassign : ∀ i, i < urls.length → assign i < workers) :
    ((runOutcomes workers assign (probeOf clientOk send retries) urls).map
      (fun s => s.url)).Perm urls := by
  have hurl : (fun p : Nat × String => (probeOf clientOk send retries p.2).url) =
      Prod.snd := by
    funext p
    exact check_website_url (clientOk p.2) (send p.2) retries p.2
  have hmap : (runOutcomes workers assign (probeOf clientOk send retries) urls).map
      (fun s => s.url) =
      ((List.range workers).flatMap
        (fun w => workerItems assign w urls)).map Prod.snd := by
    rw [runOutcomes, List.map_flatMap, List.map_flatMap]
    refine flatMap_congr ?_
    intro w _
    rw [workerOutcomes, List.map_map]
    show (workerItems assign w urls).map
      (fun p => (probeOf clientOk send retries p.2).url) = _
    rw [hurl]
  rw [hmap]
  have hpart : ((List.range workers).flatMap
      (fun w => workerItems assign w urls)).Perm (queueItems urls) := by
    refine flatMap_filter_perm (fun p : Nat × String => assign p.1) workers
      (queueItems urls) ?_
    intro p hp
    have hmem := (List.of_mem_zip hp).1
    exact hassign p.1 (List.mem_range.mp hmem)
  refine (hpart.map Prod.snd).trans ?_
  rw [queueItems, List.map_snd_zip _ _ (le_of_eq (List.length_range _).symm)]

/-- With a working client, `check_website` packages the loop's result. -/
theorem check_website_true (send : Nat → Except String Nat) (retries : Nat)
    (url : String) :
    check_website true send retries url =
      ({ url := url, action_status := (probeFrom send 0 retries).1 },
        (probeFrom send 0 retries).2.1, (probeFrom send 0 retries).2.2) := rfl

/-- Claim C1: for every non-empty input URL sequence, every worker count
`≥ 1`, every retry count, every delivery schedule of queue positions to
workers, and every drain order of the status channel (a permutation of
the pooled per-worker outcome streams), the run yields exactly one
outcome per input URL: the result count equals the input count and the
outcome URLs are a permutation of the input URLs. -/
theorem claim_C1_count_preservation (urls : List String)
    (clientOk : String → Bool) (send : String → Nat → Except String Nat)
    (retries workers : Nat) (assign : Nat → Nat) (res : List WebsiteStatus)
    (hne : urls ≠ []) (hw : 1 ≤ workers)
    (hassign : ∀ i, i < urls.length → assign i < workers)
    (hres : res.Perm (runOutcomes workers assign (probeOf clientOk send retries) urls)) :
    res.length = urls.length ∧ (res.map (fun s => s.url)).Perm urls := by
  have hperm : ((res.map (fun s => s.url))).Perm urls :=
    (hres.map (fun s => s.url)).trans
      (runOutcomes_map_url_perm workers assign clientOk send retries urls hassign)
  refine ⟨?_, hperm⟩
  have := hperm.length_eq
  rwa [List.length_map] at this

/-- Witness for C1 at a concrete run: two URLs, one worker, delivery of
both queue positions to worker 0, drained in pool order. -/
theorem claim_C1_count_preservation_witness :
    (runOutcomes 1 (fun _ => 0)
        (probeOf (fun _ => true) (fun _ _ => Except.error "x") 0)
        ["a", "b"]).length = (["a", "b"] : List String).length ∧
      ((runOutcomes 1 (fun _ => 0)
          (probeOf (fun _ => true) (fun _ _ => Except.error "x") 0)
          ["a", "b"]).map (fun s => s.url)).Perm ["a", "b"] :=
  claim_C1_count_preservation ["a", "b"] (fun _ => true)
    (fun _ _ => Except.error "x") 0 1 (fun _ => 0) _
    (by decide) (by decide) (fun i _ => Nat.one_pos) (List.Perm.refl _)

/-- Claim C2: a probe whose every attempt fails at the transport level
performs exactly `retries + 1` send attempts and reports `Failure` with
the error description of the last attempt (and sleeps 100 ms between
consecutive attempts). -/
theorem claim_C2_retry_exhaustion (errs : Nat → String) (retries : Nat)
    (url : String) :
    check_website true (fun i => .error (errs i)) retries url =
      ({ url := url, action_status := .error (errs retries) },
        retries + 1, List.replicate retries 100) := by
  have h := probeFrom_all_fail errs retries 0
  rw [Nat.zero_add] at h
  rw [check_website_true, h]

/-- Claim C3: if the attempts before `k` all fail at the transport level
and attempt `k ≤ retries` receives an HTTP response with status code
`c` (any code, including 4xx/5xx), the probe stops right there with
`Success c`: exactly `k + 1` attempts, never a retry after a received
response and never a `Failure`. -/
theorem claim_C3_success_stops (send : Nat → Except String Nat)
    (retries : Nat) (url : String) (k c : Nat)
    (hk : k ≤ retries) (hok : send k = .ok c)
    (hfail : ∀ j, j < k → ∃ e, send j = .error e) :
    check_website true send retries url =
      ({ url := url, action_status := .ok c }, k + 1, List.replicate k 100) := by
  have h := probeFrom_first_ok send c k retries 0 hk
    (by rw [Nat.zero_add]; exact hok)
    (fun j hj => by rw [Nat.zero_add]; exact hfail j hj)
  rw [check_website_true, h]

/-- Witness for C3: the first attempt times out, the second receives a
500-class response; the probe stops at attempt 2 with `Success`. -/
theorem claim_C3_success_stops_witness :
    check_website true (fun i => if i = 0 then .error "e" else .ok 500) 2 "u" =
      ({ url := "u", action_status := .ok 500 }, 1 + 1, List.replicate 1 100) :=
  claim_C3_success_stops (fun i => if i = 0 then .error "e" else .ok 500)
    2 "u" 1 500 (by decide) rfl
    (fun j hj => ⟨"e", by simp [Nat.lt_one_iff.mp hj]⟩)

/-- Claim C4: when the HTTP client cannot be constructed, the probe
reports `Failure "Failed to create client"` with zero send attempts and
zero backoff sleeps. -/
theorem claim_C4_client_failure (send : Nat → Except String Nat)
    (retries : Nat) (url : String) :
    check_website false send retries url =
      ({ url := url, action_status := .error "Failed to create client" },
        0, []) := rfl

/-- The sleeps of the retry loop: one 100 ms backoff per attempt except
the last. -/
theorem probeFrom_sleeps (send : Nat → Except String Nat) :
    ∀ remaining attempt,
      (probeFrom send attempt remaining).2.2 =
        List.replicate ((probeFrom send attempt remaining).2.1 - 1) 100
  | 0, attempt => by
    cases h : send attempt
    · rw [probeFrom_err_zero h]
      rfl
    · rw [probeFrom_ok 0 h]
      rfl
  | r + 1, attempt => by
    cases h : send attempt with
    | ok c =>
      rw [probeFrom_ok (r + 1) h]
      rfl
    | error e =>
      rw [probeFrom_err_succ r h]
      have ih := probeFrom_sleeps send r (attempt + 1)
      have hpos := probeFrom_attempts_pos send (attempt + 1) r
      rw [ih]
      obtain ⟨m, hm⟩ : ∃ m, (probeFrom send (attempt + 1) r).2.1 = m + 1 :=
        ⟨(probeFrom send (attempt + 1) r).2.1 - 1, by omega⟩
      rw [hm]
      simp [List.replicate_succ]

/-- Claim C8: a probe with a working client sleeps a constant 100 ms
backoff exactly once after every attempt except the final one — i.e.
after each transport-level failure that still has attempts remaining —
and never after the final attempt. -/
theorem claim_C8_backoff (send : Nat → Except String Nat) (retries : Nat)
    (url : String) :
    (check_website true send retries url).2.2 =
      List.replicate ((check_website true send retries url).2.1 - 1) 100 := by
  rw [check_website_true]
  exact probeFrom_sleeps send retries 0

/-! ### Argument parsing -/

/-- The parsing loop pushes a non-flag argument onto the URL list. -/
theorem fromArgsLoop_url_cons (a : String) (rest : List String)
    (fp : Option String) (urls : List String) (w t r : Nat)
    (hdash : strStartsWith a "--" = false) :
    fromArgsLoop (a :: rest) fp urls w t r =
      fromArgsLoop rest fp (urls ++ [a]) w t r := by
  have hfile : a ≠ "--file" := by
    intro hc
    rw [hc] at hdash
    exact absurd hdash (by decide)
  have hworkers : a ≠ "--workers" := by
    intro hc
    rw [hc] at hdash
    exact absurd hdash (by decide)
  have htimeout : a ≠ "--timeout" := by
    intro hc
    rw [hc] at hdash
    exact absurd hdash (by decide)
  have hretries : a ≠ "--retries" := by
    intro hc
    rw [hc] at hdash
    exact absurd hdash (by decide)
  rw [fromArgsLoop.eq_def]
  simp only [if_neg hfile, if_neg hworkers, if_neg htimeout, if_neg hretries,
    hdash, Bool.false_eq_true, if_false]

/-- The parsing loop treats a flag-free prefix as URLs, in order. -/
theorem fromArgsLoop_urls :
    ∀ (pre : List String), (∀ a ∈ pre, strStartsWith a "--" = false) →
    ∀ (args : List String) (fp : Option String) (urls : List String)
      (w t r : Nat),
      fromArgsLoop (pre ++ args) fp urls w t r =
        fromArgsLoop args fp (urls ++ pre) w t r
  | [], _, args, fp, urls, w, t, r => by rw [List.nil_append, List.append_nil]
  | a :: pre, h, args, fp, urls, w, t, r => by
    rw [List.cons_append,
      fromArgsLoop_url_cons a (pre ++ args) fp urls w t r
        (h a (List.mem_cons_self a pre)),
      fromArgsLoop_urls pre (fun b hb => h b (List.mem_cons_of_mem a hb)) args
        fp (urls ++ [a]) w t r,
      List.append_cons urls a pre]

/-- The terminal step of the parsing loop. -/
theorem fromArgsLoop_nil (fp : Option String) (urls : List String)
    (w t r : Nat) :
    fromArgsLoop [] fp urls w t r =
      if fp = none ∧ urls = [] then
        .error "No URLs provided. Use --file or provide URLs directly."
      else .ok ⟨fp, urls, w, t, r⟩ := rfl

/-- Unfolding the `--workers` step of the parsing loop. -/
theorem fromArgsLoop_workers (wstr : String) (rest : List String)
    (fp : Option String) (urls : List String) (w t r : Nat) :
    fromArgsLoop ("--workers" :: wstr :: rest) fp urls w t r =
      (match strToNat? wstr with
       | none => .error "Invalid number for --workers"
       | some v => fromArgsLoop rest fp urls v t r) := rfl

/-- Unfolding the `--timeout` step of the parsing loop. -/
theorem fromArgsLoop_timeout (tstr : String) (rest : List String)
    (fp : Option String) (urls : List String) (w t r : Nat) :
    fromArgsLoop ("--timeout" :: tstr :: rest) fp urls w t r =
      (match strToNat? tstr with
       | none => .error "Invalid number for --timeout"
       | some v => fromArgsLoop rest fp urls w v r) := rfl

/-- Claim C9: with none of the four flags present, parsing yields the
defaults `workers = 4`, `timeout_secs = 5`, `retries = 0` and treats
every argument as a URL; and any `--`-prefixed argument other than
`--file`, `--workers`, `--timeout`, `--retries` is rejected as an
unknown-flag error. -/
theorem claim_C9_defaults_and_unknown_flags :
    (∀ args : List String, args ≠ [] →
      (∀ a ∈ args, strStartsWith a "--" = false) →
      Config.from_args args = .ok ⟨none, args, 4, 5, 0⟩) ∧
    (∀ (pre : List String) (a : String) (rest : List String),
      (∀ u ∈ pre, strStartsWith u "--" = false) →
      strStartsWith a "--" = true →
      a ≠ "--file" → a ≠ "--workers" → a ≠ "--timeout" → a ≠ "--retries" →
      Config.from_args (pre ++ a :: rest) =
        .error ("Unknown flag: " ++ a)) := by
  constructor
  · intro args hne h
    calc Config.from_args args
        = fromArgsLoop (args ++ []) none [] 4 5 0 := by
          rw [List.append_nil]; rfl
      _ = fromArgsLoop [] none ([] ++ args) 4 5 0 :=
          fromArgsLoop_urls args h [] none [] 4 5 0
      _ = .ok ⟨none, args, 4, 5, 0⟩ := by
          rw [List.nil_append, fromArgsLoop_nil, if_neg (fun hc => hne hc.2)]
  · intro pre a rest hpre ha hfile hworkers htimeout hretries
    calc Config.from_args (pre ++ a :: rest)
        = fromArgsLoop (pre ++ a :: rest) none [] 4 5 0 := rfl
      _ = fromArgsLoop (a :: rest) none ([] ++ pre) 4 5 0 :=
          fromArgsLoop_urls pre hpre (a :: rest) none [] 4 5 0
      _ = .error ("Unknown flag: " ++ a) := by
          rw [fromArgsLoop.eq_def]
          simp only [if_neg hfile, if_neg hworkers, if_neg htimeout,
            if_neg hretries, ha, if_true]

/-- Witness for C9: a bare URL gets the default configuration, and a
stray `--bogus` flag is rejected. -/
theorem claim_C9_witness :
    Config.from_args ["u"] = .ok ⟨none, ["u"], 4, 5, 0⟩ ∧
      Config.from_args ["--bogus"] = .error ("Unknown flag: " ++ "--bogus") :=
  ⟨claim_C9_defaults_and_unknown_flags.1 ["u"] (by decide) (by decide),
    claim_C9_defaults_and_unknown_flags.2 [] "--bogus" []
      (by intro u hu; cases hu) (by decide)
      (by decide) (by decide) (by decide) (by decide)⟩

/-- Counterexample to claim C5 as stated: `--workers 0 --timeout 0` is
not rejected — parsing succeeds, and with zero workers the run returns
an (empty) outcome collection instead of a configuration error. -/
theorem claim_C5_counterexample :
    Config.from_args ["--workers", "0", "--timeout", "0", "http://a"] =
      .ok ⟨none, ["http://a"], 0, 0, 0⟩ ∧
    mainResults ["--workers", "0", "http://a"] [] (fun _ => 0)
      (fun _ => true) (fun _ _ => .error "e") = .ok [] := by
  exact ⟨rfl, rfl⟩

/-- Claim C5 as amended: configuration parsing performs no positivity
validation — any numeric `--workers` and `--timeout` values, including
0, are accepted and the run proceeds; only empty input, missing or
non-numeric flag arguments, and unknown flags are configuration
errors. -/
theorem claim_C5_no_validation (wstr tstr : String) (w t : Nat)
    (urls : List String) (hw : strToNat? wstr = some w)
    (ht : strToNat? tstr = some t) (hne : urls ≠ [])
    (hurls : ∀ u ∈ urls, strStartsWith u "--" = false) :
    Config.from_args ("--workers" :: wstr :: "--timeout" :: tstr :: urls) =
      .ok ⟨none, urls, w, t, 0⟩ := by
  show fromArgsLoop ("--workers" :: wstr :: "--timeout" :: tstr :: urls)
    none [] 4 5 0 = _
  rw [fromArgsLoop_workers, hw]
  show fromArgsLoop ("--timeout" :: tstr :: urls) none [] w 5 0 = _
  rw [fromArgsLoop_timeout, ht]
  show fromArgsLoop urls none [] w t 0 = _
  calc fromArgsLoop urls none [] w t 0
      = fromArgsLoop (urls ++ []) none [] w t 0 := by rw [List.append_nil]
    _ = fromArgsLoop [] none ([] ++ urls) w t 0 :=
        fromArgsLoop_urls urls hurls [] none [] w t 0
    _ = .ok ⟨none, urls, w, t, 0⟩ := by
        rw [List.nil_append, fromArgsLoop_nil, if_neg (fun hc => hne hc.2)]

/-- Witness for the amended C5: worker count 0 and timeout 0 are
accepted. -/
theorem claim_C5_no_validation_witness :
    Config.from_args ["--workers", "0", "--timeout", "0", "http://b"] =
      .ok ⟨none, ["http://b"], 0, 0, 0⟩ :=
  claim_C5_no_validation "0" "0" 0 0 ["http://b"] rfl rfl (by decide)
    (by decide)

/-! ### URL loading and the run pipeline -/

/-- Claim C6: when the URL list assembled from the file and the command
line is empty, `main`'s pipeline stops with the configuration error of
`load_urls`; the worker pool (the `.ok` branch of `mainResults`) is
never reached. -/
theorem claim_C6_empty_input (args fileLines : List String)
    (assign : Nat → Nat) (clientOk : String → Bool)
    (send : String → Nat → Except String Nat) (cfg : Config)
    (hcfg : Config.from_args args = .ok cfg)
    (hempty : loadList cfg fileLines = []) :
    mainResults args fileLines assign clientOk send =
      .error "No valid URLs provided." := by
  rw [mainResults, hcfg]
  show (match load_urls cfg fileLines with
        | .error e => Except.error e
        | .ok urls =>
          .ok (runOutcomes cfg.workers assign
            (probeOf clientOk send cfg.retries) urls)) = _
  rw [load_urls, hempty]
  rfl

/-- Witness for C6: a `--file` run whose file holds only a comment and a
blank line, with no command-line URLs, is rejected. -/
theorem claim_C6_empty_input_witness :
    mainResults ["--file", "f"] ["#c", " "] (fun _ => 0) (fun _ => true)
      (fun _ _ => .error "e") = .error "No valid URLs provided." :=
  claim_C6_empty_input ["--file", "f"] ["#c", " "] (fun _ => 0)
    (fun _ => true) (fun _ _ => .error "e") ⟨some "f", [], 4, 5, 0⟩ rfl rfl

/-- A `Success` result of the retry loop is the status code of some
attempt's received response, verbatim. -/
theorem probeFrom_ok_source (send : Nat → Except String Nat) :
    ∀ (remaining attempt c : Nat),
      (probeFrom send attempt remaining).1 = .ok c →
      ∃ k, k ≤ remaining ∧ send (attempt + k) = .ok c
  | 0, attempt, c => by
    cases h : send attempt with
    | ok d =>
      rw [probeFrom_ok 0 h]
      intro hc
      obtain rfl : d = c := by injection hc
      exact ⟨0, Nat.le_refl 0, by rw [Nat.add_zero]; exact h⟩
    | error e =>
      rw [probeFrom_err_zero h]
      intro hc
      exact absurd hc (by simp)
  | r + 1, attempt, c => by
    cases h : send attempt with
    | ok d =>
      rw [probeFrom_ok (r + 1) h]
      intro hc
      obtain rfl : d = c := by injection hc
      exact ⟨0, Nat.zero_le _, by rw [Nat.add_zero]; exact h⟩
    | error e =>
      rw [probeFrom_err_succ r h]
      intro hc
      obtain ⟨k, hk, hks⟩ := probeFrom_ok_source send r (attempt + 1) c hc
      exact ⟨k + 1, by omega,
        by rw [show attempt + (k + 1) = attempt + 1 + k from by omega]
           exact hks⟩

/-- Counterexample to claim C7 as stated: the code stores the received
status code without any range check, so a response with code 600 (the
underlying HTTP library admits codes 100–999) yields a `Success`
outcome whose code is outside 100–599. -/
theorem claim_C7_counterexample :
    (check_website true (fun _ => .ok 600) 0 "u").1.action_status =
        .ok 600 ∧
      ¬ (600 ≤ 599) := ⟨rfl, by decide⟩

/-- Claim C7 as amended: a `Success` outcome carries verbatim a status
code received from some send attempt; hence it lies in 100–599 whenever
every received response code does (the code itself imposes no bound). -/
theorem claim_C7_status_range (clientOk : Bool)
    (send : Nat → Except String Nat) (retries : Nat) (url : String)
    (c : Nat)
    (hrange : ∀ k code, send k = .ok code → 100 ≤ code ∧ code ≤ 599)
    (hok : (check_website clientOk send retries url).1.action_status = .ok c) :
    100 ≤ c ∧ c ≤ 599 := by
  cases clientOk with
  | false =>
    have hred : (check_website false send retries url).1.action_status =
        Except.error "Failed to create client" := rfl
    rw [hred] at hok
    cases hok
  | true =>
    have hok2 : (probeFrom send 0 retries).1 = .ok c := hok
    obtain ⟨k, _, hks⟩ := probeFrom_ok_source send retries 0 c hok2
    exact hrange _ _ hks

/-- Witness for the amended C7: a 200 response within range. -/
theorem claim_C7_status_range_witness : 100 ≤ 200 ∧ 200 ≤ 599 :=
  claim_C7_status_range true (fun _ => .ok 200) 0 "u" 200
    (fun k code h => by
      obtain rfl : (200 : Nat) = code := by injection h
      decide)
    rfl

/-- The file-reading loop equals the spec's map-then-filter phrasing. -/
theorem processLines_eq_spec :
    ∀ ls : List String,
      processLines ls =
        (ls.map strTrim).filter
          (fun t => !(t == "") && !(strStartsWith t "#"))
  | [] => rfl
  | l :: ls => by
    cases hb : !(strTrim l == "") && !(strStartsWith (strTrim l) "#") with
    | false =>
      rw [processLines, List.map_cons, List.filter_cons]
      simp only [hb, if_false, Bool.false_eq_true]
      exact processLines_eq_spec ls
    | true =>
      rw [processLines, List.map_cons, List.filter_cons]
      simp only [hb, if_true]
      rw [processLines_eq_spec ls]

/-- Claim C10: with a `--file` argument present, `load_urls` trims every
file line, skips lines empty after trimming or starting with `#`,
preserves file order, and appends the command-line URLs after the file
URLs — i.e. it returns exactly `loadSpec fileLines cfg.urls` (or the
emptiness error when that list is empty). -/
theorem claim_C10_load_order (cfg : Config) (fileLines : List String)
    (p : String) (hfile : cfg.file_path = some p) :
    load_urls cfg fileLines =
      (if loadSpec fileLines cfg.urls = [] then
        .error "No valid URLs provided."
       else .ok (loadSpec fileLines cfg.urls)) := by
  have hlist : loadList cfg fileLines = loadSpec fileLines cfg.urls := by
    rw [loadList, hfile, loadSpec, processLines_eq_spec]
  rw [load_urls, hlist]

/-- Witness for C10: trimming, comment/blank skipping, file order, then
the command-line URL. -/
theorem claim_C10_load_order_witness :
    load_urls ⟨some "f", ["u"], 4, 5, 0⟩ [" a ", "", "#x", "b"] =
      .ok ["a", "b", "u"] := by
  rw [claim_C10_load_order ⟨some "f", ["u"], 4, 5, 0⟩
    [" a ", "", "#x", "b"] "f" rfl]
  rfl

end StatusChecker
